import Mathlib

/-!
Verification of the certificate-video generator (`api/index.js`).

The development shallowly embeds the request-handling pipeline of the
`POST /generate` route: name sanitization, input validation, the circular
overlay composition parameters, the drawtext/filter-graph string
construction with its escaping, the external-render failure path, and the
workspace/upload cleanup performed on each exit path.  External
collaborators (the `sharp` image decoder and the `ffmpeg` render engine)
are abstracted by per-request outcome flags in a `GenEnv` record; the
filter-string quoting grammar is modelled by an escape-aware scanner in
which a backslash escapes the following character.
-/

namespace CertVid

/-- JavaScript `String.prototype.trim` whitespace class (ASCII part). -/
def isJsWhitespace (c : Char) : Bool :=
  c == ' ' || c == '\t' || c == '\n' || c == '\r' || c == '\x0b' || c == '\x0c'

/-- Model of JS `.trim()`: drop leading and trailing whitespace. -/
def jsTrim (s : String) : String :=
  String.mk (((s.toList.dropWhile isJsWhitespace).reverse.dropWhile isJsWhitespace).reverse)

/-- Model of JS `.toUpperCase()` (ASCII case mapping). -/
def jsToUpper (s : String) : String :=
  String.mk (s.toList.map Char.toUpper)

/-- Characters removed by `sanitizeForDrawText`: `:` and `"`. -/
def keptBySanitize (c : Char) : Bool :=
  !(c == ':' || c == '"')

/-- Embedding of `sanitizeForDrawText` (api/index.js lines 50-53):
`if (!s) return ''; return s.replace(/[:"]/g, '');`. -/
def sanitizeForDrawText (s : String) : String :=
  if s = "" then "" else String.mk (s.toList.filter keptBySanitize)

/-- Embedding of the name normalization applied by the route
(api/index.js line 86): `sanitizeForDrawText(nameRaw.toUpperCase().trim())`. -/
def sanitizedName (raw : String) : String :=
  sanitizeForDrawText (jsTrim (jsToUpper raw))

theorem sanitizeForDrawText_eq_filter (s : String) :
    sanitizeForDrawText s = String.mk (s.toList.filter keptBySanitize) := by
  unfold sanitizeForDrawText
  by_cases h : s = ""
  · subst h; rfl
  · simp [h]

/-! ## Filter-string escaping (api/index.js lines 138-141) -/

/-- Replacement pass of JS `s.replace(/<sp>/g, '\\<sp>')`: every occurrence of
the special character `sp` becomes backslash followed by `sp`. -/
def escCharL (sp : Char) : List Char → List Char
  | [] => []
  | c :: cs => (if c = sp then ['\\', sp] else [c]) ++ escCharL sp cs

/-- String-level wrapper for `escCharL`. -/
def strReplaceEsc (sp : Char) (s : String) : String :=
  String.mk (escCharL sp s.toList)

/-- Embedding of `fontCopyPath.replace(/\\/g, '/')` (line 138): normalize
backslashes to forward slashes. -/
def normSlash (s : String) : String :=
  String.mk (s.toList.map (fun c => if c = '\\' then '/' else c))

/-- Embedding of line 139: `fontPathForFF.replace(/:/g, '\\:').replace(/'/g, "\\'")`
applied after slash normalization. -/
def fontPathEscapedForFilter (fontCopyPath : String) : String :=
  strReplaceEsc '\'' (strReplaceEsc ':' (normSlash fontCopyPath))

/-- Embedding of line 140: `name.replace(/'/g, "\\'")`. -/
def safeName (name : String) : String :=
  strReplaceEsc '\'' name

/-- Canvas width constant `CANVAS_W` (line 47). -/
def CANVAS_W : Nat := 1240

/-- Canvas height constant `CANVAS_H` (line 48). -/
def CANVAS_H : Nat := 1748

/-- Overlay x offset, `620 - 300` (line 134). -/
def overlayX : Int := 620 - 300

/-- Overlay y offset, `425 - 300` (line 135). -/
def overlayY : Int := 425 - 300

/-- Embedding of the `drawText` template literal (line 141), as a function of
the escaped font path and the quote-escaped name that the code interpolates. -/
def drawTextDirective (fontE nameE : String) : String :=
  "drawtext=fontfile='" ++ fontE ++ "':text='" ++ nameE ++
    "':fontcolor=#274245:fontsize=70:x=620-text_w/2:y=820"

/-- Embedding of the `filterComplex` string (lines 143-148). -/
def filterComplex (fontE nameE : String) : String :=
  "[0:v]scale=" ++ toString CANVAS_W ++ ":" ++ toString CANVAS_H ++
      ":force_original_aspect_ratio=decrease," ++
    "pad=" ++ toString CANVAS_W ++ ":" ++ toString CANVAS_H ++
      ":(ow-iw)/2:(oh-ih)/2:black,setsar=1[base];" ++
    "[1:v]format=rgba[ovr];" ++
    "[base][ovr]overlay=" ++ toString overlayX ++ ":" ++ toString overlayY ++
      ":format=auto[tmp];" ++
    "[tmp]" ++ drawTextDirective fontE nameE ++ ",format=yuv420p[v]"

/-! ## Escape-aware scan of the quoted filter-string grammar

A backslash escapes the character that follows it; an unescaped occurrence of
the delimiter terminates the quoted region.  `afterUnescaped t s` returns the
suffix following the first unescaped occurrence of `t`, or `none` when every
occurrence of `t` in `s` is escaped. -/

/-- Scanner: suffix after the first unescaped occurrence of `t`. -/
def afterUnescaped (t : Char) : List Char → Option (List Char)
  | [] => none
  | c :: rest =>
    if c = '\\' then
      match rest with
      | [] => none
      | _ :: rest2 => afterUnescaped t rest2
    else if c = t then some rest
    else afterUnescaped t rest

/-- Suffix of the filter string after the point where the interpolated name
would close the `text='...'` quote early, if any. -/
def breakoutSuffix (nameE : String) : Option (List Char) :=
  afterUnescaped '\'' nameE.toList

/-- Whether a (sanitized) name, once quote-escaped by the code and spliced
into `text='...'`, both escapes the quoted region and places a filter or
chain separator (`,` or `;`) outside it — i.e. injects a further stage. -/
def injectsFilterStage (name : String) : Bool :=
  match breakoutSuffix (safeName name) with
  | none => false
  | some rest => rest.contains ',' || rest.contains ';'

/-! ## Circular overlay composition (api/index.js lines 110-132)

The `sharp` invocation is declarative: a resize specification, two SVG
composite layers with blend modes, and an output encoding.  The embedding
records exactly the parameters the code passes. -/

/-- Resize fit modes of the sharp `resize` call. -/
inductive FitMode where
  | cover
  | contain
  | fill
deriving DecidableEq, Repr

/-- Blend modes used by the sharp `composite` call. -/
inductive BlendMode where
  | destIn
  | over
deriving DecidableEq, Repr

/-- Output encodings relevant to the overlay pipeline. -/
inductive OutputFormat where
  | png
  | jpeg
deriving DecidableEq, Repr

/-- Whether the output encoding carries an alpha channel. -/
def OutputFormat.hasAlpha : OutputFormat → Bool
  | .png => true
  | .jpeg => false

/-- Geometry and paint attributes of one SVG `<circle>` element. -/
structure SvgCircle where
  cx : Nat
  cy : Nat
  r : Nat
  fill : Option String
  stroke : Option String
  strokeWidth : Option Nat
deriving DecidableEq, Repr

/-- Parameters of a sharp `resize` call. -/
structure ResizeSpec where
  width : Nat
  height : Nat
  fit : FitMode
deriving DecidableEq, Repr

/-- One layer of the sharp `composite` call. -/
structure CompositeLayer where
  shape : SvgCircle
  blend : BlendMode
deriving DecidableEq, Repr

/-- Constant `targetSize` (line 111). -/
def targetSize : Nat := 600

/-- Circle of `circleSvg` (lines 114-117):
`cx=targetSize/2, cy=targetSize/2, r=targetSize/2, fill="#fff"`. -/
def circleSvgShape : SvgCircle :=
  { cx := targetSize / 2, cy := targetSize / 2, r := targetSize / 2,
    fill := some "#fff", stroke := none, strokeWidth := none }

/-- Circle of `borderSvg` (lines 118-122):
`cx=targetSize/2, cy=targetSize/2, r=targetSize/2 - 5`, no fill,
`stroke="#ff9933", stroke-width="10"`. -/
def borderSvgShape : SvgCircle :=
  { cx := targetSize / 2, cy := targetSize / 2, r := targetSize / 2 - 5,
    fill := none, stroke := some "#ff9933", strokeWidth := some 10 }

/-- The `resize` call (line 126):
`{ width: targetSize, height: targetSize, fit: 'cover' }`. -/
def overlayResize : ResizeSpec :=
  { width := targetSize, height := targetSize, fit := .cover }

/-- The `composite` call (lines 127-130): circle mask with `dest-in`, then
border ring with `over`. -/
def overlayComposite : List CompositeLayer :=
  [ { shape := circleSvgShape, blend := .destIn },
    { shape := borderSvgShape, blend := .over } ]

/-- Output encoding of the overlay, `.png()` (line 131). -/
def overlayOutputFormat : OutputFormat := .png

/-- Destination of the overlay inside the workspace (line 112):
`path.join(workDir, 'overlay_600.png')`. -/
def overlayPngPath (workDir : String) : String :=
  workDir ++ "/" ++ "overlay_600.png"

/-! ## Substring occurrence, list-level -/

/-- Boolean prefix test on character lists. -/
def leadsWith : List Char → List Char → Bool
  | [], _ => true
  | _ :: _, [] => false
  | a :: as, b :: bs => a == b && leadsWith as bs

/-- Boolean occurrence test: does `pat` occur contiguously inside `s`? -/
def occursIn (pat : List Char) : List Char → Bool
  | [] => leadsWith pat []
  | c :: rest => leadsWith pat (c :: rest) || occursIn pat rest

/-- String-level wrapper for `occursIn`. -/
def strContains (s pat : String) : Bool :=
  occursIn pat.toList s.toList

/-! ## The `POST /generate` handler (api/index.js lines 79-185)

The `sharp` decode and the `ffmpeg` render are external processes; their
per-request results are supplied as fields of `GenEnv`, together with the
existence of the two bundled static assets.  The handler model records, in
`Outcome`, the HTTP response the code produces and the filesystem state at
the end of the request: whether the per-request work directory and the
multer-written upload file still exist, and which expensive steps ran. -/

/-- Environment of one request: static-asset presence and the results of the
two external operations. -/
structure GenEnv where
  templateExists : Bool
  fontExists : Bool
  decodeOk : Bool
  decodeErrMsg : String
  renderOk : Bool
  renderStderr : String
  renderErrMsg : String
deriving DecidableEq, Repr

/-- Inbound request: optional `name` body field, optional uploaded photo
(`none` when the multipart field is absent; `some bytes` otherwise, so an
empty attachment is `some []`). -/
structure GenReq where
  name : Option String
  photo : Option (List Nat)
deriving DecidableEq, Repr

/-- Response produced by the route. -/
inductive Resp where
  | download (filename : String)
  | clientErr (msg : String)
  | serverErr (msg : String)
deriving DecidableEq, Repr

/-- HTTP status of a response: `res.download` streams 200, the validation
failures use `res.status(400)`, everything else `res.status(500)`. -/
def Resp.status : Resp → Nat
  | .download _ => 200
  | .clientErr _ => 400
  | .serverErr _ => 500

/-- Whether a response is an error response. -/
def Resp.isErr (r : Resp) : Bool :=
  decide (400 ≤ r.status)

/-- Result of handling one request: the response plus the end-of-request
filesystem facts and which pipeline stages were reached. -/
structure Outcome where
  resp : Resp
  workDirRemains : Bool
  uploadRemains : Bool
  fontCopied : Bool
  overlayBuilt : Bool
  renderAttempted : Bool
deriving DecidableEq, Repr

/-- Embedding of the `POST /generate` handler body.  Mirrors the source
order: name normalization, photo-presence check, name check, template check,
font check, font copy + sharp composition (decode may throw into the catch
handler), ffmpeg render (failure rejects into the catch handler with
`ffmpeg error: ${stderr || err.message}`), then `res.download` whose
callback removes the work directory and the upload.  Every error path runs
`fs.remove(workDir)` but none removes the uploaded file. -/
def generate (env : GenEnv) (req : GenReq) : Outcome :=
  let nameRaw := req.name.getD ""
  let name := sanitizeForDrawText (jsTrim (jsToUpper nameRaw))
  match req.photo with
  | none =>
      { resp := .clientErr "Photo is required (field name: photo)",
        workDirRemains := false, uploadRemains := false,
        fontCopied := false, overlayBuilt := false, renderAttempted := false }
  | some _bytes =>
      if name = "" then
        { resp := .clientErr "Name is required",
          workDirRemains := false, uploadRemains := true,
          fontCopied := false, overlayBuilt := false, renderAttempted := false }
      else if !env.templateExists then
        { resp := .serverErr "Template video missing on server",
          workDirRemains := false, uploadRemains := true,
          fontCopied := false, overlayBuilt := false, renderAttempted := false }
      else if !env.fontExists then
        { resp := .serverErr "Font file missing on server",
          workDirRemains := false, uploadRemains := true,
          fontCopied := false, overlayBuilt := false, renderAttempted := false }
      else if !env.decodeOk then
        { resp := .serverErr
            (if env.decodeErrMsg = "" then "Server error" else env.decodeErrMsg),
          workDirRemains := false, uploadRemains := true,
          fontCopied := true, overlayBuilt := false, renderAttempted := false }
      else if !env.renderOk then
        { resp := .serverErr ("ffmpeg error: " ++
            (if env.renderStderr = "" then env.renderErrMsg else env.renderStderr)),
          workDirRemains := false, uploadRemains := true,
          fontCopied := true, overlayBuilt := true, renderAttempted := true }
      else
        { resp := .download "My_Certificate.mp4",
          workDirRemains := false, uploadRemains := false,
          fontCopied := true, overlayBuilt := true, renderAttempted := true }

/-! ## Supporting lemmas -/

theorem strToList_append (a b : String) : (a ++ b).toList = a.toList ++ b.toList := rfl

theorem occursIn_nil_pat (m : List Char) : occursIn [] m = true := by
  cases m with
  | nil => rfl
  | cons c rest => simp [occursIn, leadsWith]

theorem leadsWith_append (p l m : List Char) (h : leadsWith p l = true) :
    leadsWith p (l ++ m) = true := by
  induction p generalizing l with
  | nil => rfl
  | cons a as ih =>
    cases l with
    | nil => simp [leadsWith] at h
    | cons b bs =>
      simp only [leadsWith, Bool.and_eq_true] at h
      simp only [List.cons_append, leadsWith, Bool.and_eq_true]
      exact ⟨h.1, ih bs h.2⟩

theorem occursIn_append_right (p l m : List Char) (h : occursIn p m = true) :
    occursIn p (l ++ m) = true := by
  induction l with
  | nil => simpa using h
  | cons c cs ih =>
    simp only [List.cons_append, occursIn, Bool.or_eq_true]
    exact Or.inr ih

theorem occursIn_append_left (p l m : List Char) (h : occursIn p l = true) :
    occursIn p (l ++ m) = true := by
  induction l with
  | nil =>
    cases p with
    | nil => exact occursIn_nil_pat m
    | cons a as => simp [occursIn, leadsWith] at h
  | cons c cs ih =>
    simp only [occursIn, Bool.or_eq_true] at h
    simp only [List.cons_append, occursIn, Bool.or_eq_true]
    cases h with
    | inl h => exact Or.inl (leadsWith_append _ _ _ h)
    | inr h => exact Or.inr (ih h)

/-- Decomposition of the drawtext directive into its literal skeleton and the
two interpolated holes. -/
theorem drawTextDirective_toList (f n : String) :
    (drawTextDirective f n).toList =
      "drawtext=fontfile='".toList ++ (f.toList ++ ("':text='".toList ++ (n.toList ++
        "':fontcolor=#274245:fontsize=70:x=620-text_w/2:y=820".toList))) := by
  simp only [drawTextDirective, strToList_append, List.append_assoc]

/-- Closed portion of the filter graph preceding the drawtext stage. -/
def filterGraphHead : String :=
  "[0:v]scale=" ++ toString CANVAS_W ++ ":" ++ toString CANVAS_H ++
      ":force_original_aspect_ratio=decrease," ++
    "pad=" ++ toString CANVAS_W ++ ":" ++ toString CANVAS_H ++
      ":(ow-iw)/2:(oh-ih)/2:black,setsar=1[base];" ++
    "[1:v]format=rgba[ovr];" ++
    "[base][ovr]overlay=" ++ toString overlayX ++ ":" ++ toString overlayY ++
      ":format=auto[tmp];" ++ "[tmp]"

theorem filterComplex_decomp (f n : String) :
    (filterComplex f n).toList =
      filterGraphHead.toList ++
        ((drawTextDirective f n).toList ++ ",format=yuv420p[v]".toList) := by
  simp only [filterComplex, filterGraphHead, strToList_append, List.append_assoc]

theorem strContains_drawText_tail (f n : String) (pat : String)
    (h : occursIn pat.toList
      "':fontcolor=#274245:fontsize=70:x=620-text_w/2:y=820".toList = true) :
    strContains (drawTextDirective f n) pat = true := by
  unfold strContains
  rw [drawTextDirective_toList]
  exact occursIn_append_right _ _ _ (occursIn_append_right _ _ _
    (occursIn_append_right _ _ _ (occursIn_append_right _ _ _ h)))

/-! ## Sample environments and requests -/

/-- Environment with both assets present and both external steps succeeding. -/
def envAllOk : GenEnv :=
  { templateExists := true, fontExists := true, decodeOk := true,
    decodeErrMsg := "", renderOk := true, renderStderr := "", renderErrMsg := "" }

/-- Environment with the template video absent. -/
def envNoTemplate : GenEnv :=
  { templateExists := false, fontExists := true, decodeOk := true,
    decodeErrMsg := "", renderOk := true, renderStderr := "", renderErrMsg := "" }

/-- Environment in which sharp cannot decode the uploaded bytes. -/
def envDecodeFail : GenEnv :=
  { templateExists := true, fontExists := true, decodeOk := false,
    decodeErrMsg := "Input buffer contains unsupported image format",
    renderOk := true, renderStderr := "", renderErrMsg := "" }

/-- Environment in which ffmpeg fails with captured stderr. -/
def envRenderFail : GenEnv :=
  { templateExists := true, fontExists := true, decodeOk := true,
    decodeErrMsg := "", renderOk := false, renderStderr := "DIAG",
    renderErrMsg := "ffmpeg exited with code 1" }

/-- Request with a valid name and a non-empty photo attachment. -/
def reqJane : GenReq := { name := some "Jane", photo := some [1, 2, 3] }

/-- Branch normal form of the handler on a request that carries a photo. -/
theorem generate_some (env : GenEnv) (nm : Option String) (bytes : List Nat) :
    generate env { name := nm, photo := some bytes } =
      if sanitizedName (nm.getD "") = "" then
        { resp := .clientErr "Name is required", workDirRemains := false,
          uploadRemains := true, fontCopied := false, overlayBuilt := false,
          renderAttempted := false }
      else if !env.templateExists then
        { resp := .serverErr "Template video missing on server",
          workDirRemains := false, uploadRemains := true, fontCopied := false,
          overlayBuilt := false, renderAttempted := false }
      else if !env.fontExists then
        { resp := .serverErr "Font file missing on server",
          workDirRemains := false, uploadRemains := true, fontCopied := false,
          overlayBuilt := false, renderAttempted := false }
      else if !env.decodeOk then
        { resp := .serverErr
            (if env.decodeErrMsg = "" then "Server error" else env.decodeErrMsg),
          workDirRemains := false, uploadRemains := true, fontCopied := true,
          overlayBuilt := false, renderAttempted := false }
      else if !env.renderOk then
        { resp := .serverErr ("ffmpeg error: " ++
            (if env.renderStderr = "" then env.renderErrMsg else env.renderStderr)),
          workDirRemains := false, uploadRemains := true, fontCopied := true,
          overlayBuilt := true, renderAttempted := true }
      else
        { resp := .download "My_Certificate.mp4", workDirRemains := false,
          uploadRemains := false, fontCopied := true, overlayBuilt := true,
          renderAttempted := true } := rfl

/-! ## Escaping lemmas -/

theorem afterUnescaped_esc2 (t c : Char) (zs : List Char) :
    afterUnescaped t ('\\' :: c :: zs) = afterUnescaped t zs := rfl

theorem afterUnescaped_cons_ne (t c : Char) (hc : c ≠ '\\') (hct : c ≠ t)
    (zs : List Char) :
    afterUnescaped t (c :: zs) = afterUnescaped t zs := by
  rw [afterUnescaped.eq_def]
  simp only [if_neg hc, if_neg hct]

theorem escCharL_cons (sp c : Char) (cs : List Char) :
    escCharL sp (c :: cs) = (if c = sp then ['\\', sp] else [c]) ++ escCharL sp cs := rfl

theorem escCharL_append (sp : Char) (a b : List Char) :
    escCharL sp (a ++ b) = escCharL sp a ++ escCharL sp b := by
  induction a with
  | nil => rfl
  | cons c cs ih => simp [escCharL, ih, List.append_assoc]

theorem escCharL_no_unescaped (t : Char) (xs : List Char)
    (hxs : '\\' ∉ xs) :
    afterUnescaped t (escCharL t xs) = none := by
  induction xs with
  | nil => rfl
  | cons c cs ih =>
    have hc : c ≠ '\\' := fun h => hxs (h ▸ List.mem_cons_self c cs)
    have hcs : '\\' ∉ cs := fun h => hxs (List.mem_cons_of_mem c h)
    rw [escCharL_cons]
    by_cases h : c = t
    · rw [if_pos h, List.cons_append, List.singleton_append, afterUnescaped_esc2]
      exact ih hcs
    · rw [if_neg h, List.singleton_append, afterUnescaped_cons_ne t c hc h]
      exact ih hcs

theorem escCharL_double_no_unescaped (t : Char) (ht : t = ':' ∨ t = '\'')
    (ys : List Char) (hys : '\\' ∉ ys) :
    afterUnescaped t (escCharL '\'' (escCharL ':' ys)) = none := by
  induction ys with
  | nil => rfl
  | cons c cs ih =>
    have hc : c ≠ '\\' := fun h => hys (h ▸ List.mem_cons_self c cs)
    have hcs : '\\' ∉ cs := fun h => hys (List.mem_cons_of_mem c h)
    rw [escCharL_cons, escCharL_append]
    by_cases h1 : c = ':'
    · rw [if_pos h1]
      have hb : escCharL '\'' ['\\', ':'] = ['\\', ':'] := by decide
      rw [hb, List.cons_append, List.singleton_append, afterUnescaped_esc2]
      exact ih hcs
    · rw [if_neg h1]
      by_cases h2 : c = '\''
      · subst h2
        have hb : escCharL '\'' ['\''] = ['\\', '\''] := by decide
        rw [hb, List.cons_append, List.singleton_append, afterUnescaped_esc2]
        exact ih hcs
      · have hb : escCharL '\'' [c] = [c] := by
          rw [escCharL_cons, if_neg h2]
          rfl
        rw [hb, List.singleton_append]
        have hct : c ≠ t := by
          cases ht with
          | inl h => subst h; exact h1
          | inr h => subst h; exact h2
        rw [afterUnescaped_cons_ne t c hc hct]
        exact ih hcs

/-- Results of slash normalization never contain a backslash. -/
theorem normSlash_no_backslash (s : String) : '\\' ∉ (normSlash s).toList := by
  show '\\' ∉ s.toList.map (fun c => if c = '\\' then '/' else c)
  intro h
  rcases List.mem_map.mp h with ⟨c, _, hc⟩
  by_cases hb : c = '\\'
  · rw [if_pos hb] at hc; exact absurd hc (by decide)
  · rw [if_neg hb] at hc; exact hb hc

/-! ## Claim theorems -/

/-- C8: the placement planner uses overlay top-left offset
`(620 - 300, 425 - 300) = (320, 125)` on the `1240 × 1748` canvas, and the
text-draw directive — a function only of the escaped font path and name —
carries `fontsize=70`, horizontal centering `x=620-text_w/2`, and fixed
`y=820`; the assembled filter graph composites the overlay at `320:125`. -/
theorem placement_plan_spec :
    overlayX = 320 ∧ overlayY = 125 ∧ CANVAS_W = 1240 ∧ CANVAS_H = 1748 ∧
    (∀ f n, strContains (drawTextDirective f n) "fontsize=70" = true ∧
            strContains (drawTextDirective f n) "x=620-text_w/2" = true ∧
            strContains (drawTextDirective f n) "y=820" = true) ∧
    (∀ f n, strContains (filterComplex f n) "overlay=320:125" = true) := by
  refine ⟨by decide, by decide, rfl, rfl, ?_, ?_⟩
  · intro f n
    exact ⟨strContains_drawText_tail f n _ (by decide),
           strContains_drawText_tail f n _ (by decide),
           strContains_drawText_tail f n _ (by decide)⟩
  · intro f n
    unfold strContains
    rw [filterComplex_decomp]
    exact occursIn_append_left _ _ _ (by decide)

/-- C9: the image compositor resizes the photo with a cover fit to 600×600,
masks it with a `dest-in` circle of radius 300, composites an `over` ring of
radius 295 with stroke width 10 in the fixed accent color `#ff9933`, encodes
as PNG (an alpha-capable format), and writes `overlay_600.png` into the
workspace. -/
theorem overlay_composition_spec :
    overlayResize = { width := 600, height := 600, fit := .cover } ∧
    circleSvgShape.r = 300 ∧ circleSvgShape.fill = some "#fff" ∧
    borderSvgShape.r = 295 ∧ borderSvgShape.strokeWidth = some 10 ∧
    borderSvgShape.stroke = some "#ff9933" ∧ borderSvgShape.fill = none ∧
    overlayComposite =
      [ { shape := circleSvgShape, blend := .destIn },
        { shape := borderSvgShape, blend := .over } ] ∧
    overlayOutputFormat.hasAlpha = true ∧
    (∀ w, overlayPngPath w = w ++ "/overlay_600.png") := by
  refine ⟨rfl, rfl, rfl, rfl, rfl, rfl, rfl, rfl, rfl, ?_⟩
  intro w
  show (w ++ "/") ++ "overlay_600.png" = w ++ "/overlay_600.png"
  rw [String.append_assoc]
  rfl

/-- C4 counterexample: the full normalization pipeline applied by the route —
uppercase, then trim, then strip `:` and `"` — is not idempotent.  On the
input `": a"` the first pass yields `" A"` (stripping the leading colon
exposes a space that trim can no longer see), and a second pass yields `"A"`. -/
theorem sanitize_pipeline_not_idempotent :
    sanitizedName (sanitizedName ": a") ≠ sanitizedName ": a" ∧
    sanitizedName ": a" = " A" ∧ sanitizedName (sanitizedName ": a") = "A" := by
  decide

/-- C4 (amended): the sanitization function `sanitizeForDrawText` itself —
the strip of `:` and `"` — is idempotent; the full pipeline that uppercases
and trims before stripping is not, because stripping can expose leading or
trailing whitespace (see the counterexample). -/
theorem sanitizeForDrawText_idempotent (s : String) :
    sanitizeForDrawText (sanitizeForDrawText s) = sanitizeForDrawText s := by
  rw [sanitizeForDrawText_eq_filter, sanitizeForDrawText_eq_filter]
  show String.mk ((String.mk (s.toList.filter keptBySanitize)).toList.filter keptBySanitize)
      = String.mk (s.toList.filter keptBySanitize)
  simp [String.toList, List.filter_filter, Bool.and_self]

/-- Stripped characters never survive `sanitizeForDrawText`. -/
theorem sanitize_drops (s : String) (c : Char) (hc : keptBySanitize c = false) :
    (sanitizeForDrawText s).toList.contains c = false := by
  rw [sanitizeForDrawText_eq_filter]
  show (s.toList.filter keptBySanitize).contains c = false
  rw [Bool.eq_false_iff]
  intro h
  have hm : c ∈ s.toList.filter keptBySanitize := List.mem_of_elem_eq_true h
  have := List.of_mem_filter hm
  rw [hc] at this
  exact absurd this (by decide)

/-- Uppercasing and trimming keep every character of a colons-and-quotes
name inside that class, so the final strip empties it. -/
theorem sanitizedName_empty_of_colon_quote (raw : String)
    (h : ∀ c ∈ raw.toList, c = ':' ∨ c = '"') : sanitizedName raw = "" := by
  show sanitizeForDrawText (jsTrim (jsToUpper raw)) = ""
  rw [sanitizeForDrawText_eq_filter]
  have hup : ∀ c ∈ (jsToUpper raw).toList, c = ':' ∨ c = '"' := by
    intro c hc
    rcases List.mem_map.mp hc with ⟨c0, hc0, hc0u⟩
    rcases h c0 hc0 with h0 | h0 <;> subst h0 <;> subst hc0u
    · exact Or.inl (by decide)
    · exact Or.inr (by decide)
  have htr : ∀ c ∈ (jsTrim (jsToUpper raw)).toList, c = ':' ∨ c = '"' := by
    intro c hc
    have hc1 : c ∈ ((jsToUpper raw).toList.dropWhile isJsWhitespace).reverse.dropWhile
        isJsWhitespace := List.mem_reverse.mp hc
    have hc2 : c ∈ ((jsToUpper raw).toList.dropWhile isJsWhitespace).reverse :=
      (List.dropWhile_sublist isJsWhitespace).subset hc1
    have hc3 : c ∈ (jsToUpper raw).toList.dropWhile isJsWhitespace :=
      List.mem_reverse.mp hc2
    exact hup c ((List.dropWhile_sublist isJsWhitespace).subset hc3)
  have hnil : (jsTrim (jsToUpper raw)).toList.filter keptBySanitize = [] := by
    rw [List.filter_eq_nil_iff]
    intro a ha
    rcases htr a ha with h0 | h0 <;> subst h0 <;> decide
  rw [hnil]

/-- C5: the sanitized name contains no `:` and no `"` for every raw input,
and every name made only of colon and quote characters sanitizes to the
empty string, so the generate route rejects it with the 400-class
"Name is required" error (for every environment and any uploaded photo). -/
theorem sanitized_name_rejection_spec :
    (∀ raw, (sanitizedName raw).toList.contains ':' = false ∧
            (sanitizedName raw).toList.contains '"' = false) ∧
    (∀ raw, (∀ c ∈ raw.toList, c = ':' ∨ c = '"') →
      sanitizedName raw = "" ∧
      ∀ env bytes,
        (generate env { name := some raw, photo := some bytes }).resp
            = .clientErr "Name is required" ∧
        (generate env { name := some raw, photo := some bytes }).resp.status = 400) := by
  constructor
  · intro raw
    exact ⟨sanitize_drops _ ':' (by decide), sanitize_drops _ '"' (by decide)⟩
  · intro raw hraw
    have hempty : sanitizedName raw = "" := sanitizedName_empty_of_colon_quote raw hraw
    refine ⟨hempty, ?_⟩
    intro env bytes
    rw [generate_some]
    simp only [Option.getD_some]
    rw [if_pos hempty]
    exact ⟨rfl, rfl⟩

/-- C5 witness: the theorem applied to the colons-and-quotes name `:"::"`. -/
theorem sanitized_name_rejection_spec_witness :
    sanitizedName ":\"::\"" = "" ∧
    (generate envAllOk { name := some ":\"::\"", photo := some [1] }).resp
        = .clientErr "Name is required" :=
  ⟨(sanitized_name_rejection_spec.2 ":\"::\"" (by decide)).1,
   ((sanitized_name_rejection_spec.2 ":\"::\"" (by decide)).2 envAllOk [1]).1⟩

/-- C10: when the photo attachment is missing the route answers with the
photo-required 400 error no matter what the name field holds, and the
name-required error can only ever be produced for a request that did carry a
photo attachment. -/
theorem photo_check_precedes_name_check (env : GenEnv) (req : GenReq) :
    (req.photo = none →
      (generate env req).resp = .clientErr "Photo is required (field name: photo)") ∧
    ((generate env req).resp = .clientErr "Name is required" → req.photo ≠ none) := by
  obtain ⟨nm, ph⟩ := req
  cases ph with
  | none =>
      refine ⟨fun _ => rfl, fun h => ?_⟩
      have : ("Photo is required (field name: photo)" : String) = "Name is required" := by
        injection h
      exact absurd this (by decide)
  | some bytes =>
      exact ⟨(fun h => nomatch h), (fun _ hc => nomatch hc)⟩

/-- C10 witness: a request with no photo and no name receives the
photo-required error. -/
theorem photo_check_precedes_name_check_witness :
    (generate envAllOk { name := none, photo := none }).resp
      = .clientErr "Photo is required (field name: photo)" :=
  (photo_check_precedes_name_check envAllOk { name := none, photo := none }).1 rfl

/-- C1 counterexample: a failing request (template asset missing) with a
photo attached produces its error response with the workspace destroyed but
the uploaded photo file still on disk, contradicting "neither the workspace
nor the uploaded photo file remains". -/
theorem upload_left_on_failure_counterexample :
    (generate envNoTemplate reqJane).resp.isErr = true ∧
    (generate envNoTemplate reqJane).workDirRemains = false ∧
    (generate envNoTemplate reqJane).uploadRemains = true := by decide

/-- C1 (amended): on every failing request the per-request workspace is
destroyed before the error response is produced, but the uploaded photo file
is not deleted on failure paths: whenever the request carried a photo
attachment, the upload remains on disk.  Only the success path removes the
upload, after streaming. -/
theorem error_cleanup_workspace_only (env : GenEnv) (req : GenReq)
    (h : (generate env req).resp.isErr = true) :
    (generate env req).workDirRemains = false ∧
    (req.photo ≠ none → (generate env req).uploadRemains = true) := by
  obtain ⟨nm, ph⟩ := req
  cases ph with
  | none => exact ⟨rfl, (fun hc => absurd rfl hc)⟩
  | some bytes =>
    rw [generate_some] at h ⊢
    split_ifs at h ⊢ <;>
      simp_all [Resp.isErr, Resp.status]

/-- C1 witness: the amended theorem applied to the missing-template failure. -/
theorem error_cleanup_workspace_only_witness :
    (generate envNoTemplate reqJane).workDirRemains = false ∧
    (generate envNoTemplate reqJane).uploadRemains = true :=
  ⟨(error_cleanup_workspace_only envNoTemplate reqJane (by decide)).1,
   (error_cleanup_workspace_only envNoTemplate reqJane (by decide)).2 (by decide)⟩

/-- C2 counterexample: when ffmpeg fails with stderr `"DIAG"`, the message in
the 500 response body is `"ffmpeg error: DIAG"` — the engine diagnostic is
embedded verbatim in the response rather than retained server-side behind a
generic message. -/
theorem render_stderr_leaked_counterexample :
    (generate envRenderFail reqJane).resp
        = .serverErr ("ffmpeg error: " ++ envRenderFail.renderStderr) ∧
    strContains "ffmpeg error: DIAG" "DIAG" = true ∧
    (generate envRenderFail reqJane).resp ≠ .serverErr "Server error" := by decide

/-- C2 (amended): an external-engine failure does yield a server-class 500
response, but its caller-visible message is `"ffmpeg error: "` followed by
the engine's stderr (or the error message when stderr is empty) — the
diagnostic output is included in the response body, not generic. -/
theorem render_error_response (env : GenEnv) (nm : String) (bytes : List Nat)
    (h1 : sanitizedName nm ≠ "") (h2 : env.templateExists = true)
    (h3 : env.fontExists = true) (h4 : env.decodeOk = true)
    (h5 : env.renderOk = false) :
    (generate env { name := some nm, photo := some bytes }).resp
      = .serverErr ("ffmpeg error: " ++
          (if env.renderStderr = "" then env.renderErrMsg else env.renderStderr)) ∧
    (generate env { name := some nm, photo := some bytes }).resp.status = 500 := by
  rw [generate_some]
  simp only [Option.getD_some]
  rw [if_neg h1, if_neg (by simp [h2]), if_neg (by simp [h3]),
      if_neg (by simp [h4]), if_pos (by simp [h5])]
  exact ⟨rfl, rfl⟩

/-- C2 witness: the amended theorem applied to the sample render failure. -/
theorem render_error_response_witness :
    (generate envRenderFail { name := some "Jane", photo := some [1, 2, 3] }).resp
      = .serverErr ("ffmpeg error: " ++
          (if envRenderFail.renderStderr = "" then envRenderFail.renderErrMsg
           else envRenderFail.renderStderr)) :=
  (render_error_response envRenderFail "Jane" [1, 2, 3]
    (by decide) rfl rfl rfl rfl).1

/-- C3 counterexample: a request whose photo bytes fail to decode receives a
500 server-class response, not the 400-class caller error the claim
requires. -/
theorem decode_failure_status_counterexample :
    (generate envDecodeFail reqJane).resp.status = 500 ∧
    (generate envDecodeFail reqJane).resp.status ≠ 400 := by decide

/-- C3 (amended): an image-decode failure is caught by the route's catch-all
handler, which answers with a server-class 500 response carrying the decoder
message (or `"Server error"` when empty) — not with a 400-class caller
error. -/
theorem decode_failure_server_error (env : GenEnv) (nm : String) (bytes : List Nat)
    (h1 : sanitizedName nm ≠ "") (h2 : env.templateExists = true)
    (h3 : env.fontExists = true) (h4 : env.decodeOk = false) :
    (generate env { name := some nm, photo := some bytes }).resp
      = .serverErr (if env.decodeErrMsg = "" then "Server error" else env.decodeErrMsg) ∧
    (generate env { name := some nm, photo := some bytes }).resp.status = 500 := by
  rw [generate_some]
  simp only [Option.getD_some]
  rw [if_neg h1, if_neg (by simp [h2]), if_neg (by simp [h3]), if_pos (by simp [h4])]
  exact ⟨rfl, rfl⟩

/-- C3 witness: the amended theorem applied to the sample decode failure. -/
theorem decode_failure_server_error_witness :
    (generate envDecodeFail { name := some "Jane", photo := some [1, 2, 3] }).resp.status
      = 500 :=
  (decode_failure_server_error envDecodeFail "Jane" [1, 2, 3]
    (by decide) rfl rfl rfl).2

/-- C7 counterexample: a present-but-empty photo attachment passes
validation — the route never checks the upload size.  With undecodable
(empty) bytes the request proceeds past validation (the font copy runs) and
fails with a 500 decode error, not a 400-class validation error. -/
theorem empty_photo_not_validated_counterexample :
    (generate envDecodeFail { name := some "Jane", photo := some [] }).resp.status = 500 ∧
    (generate envDecodeFail { name := some "Jane", photo := some [] }).resp
        ≠ .clientErr "Photo is required (field name: photo)" ∧
    (generate envDecodeFail { name := some "Jane", photo := some [] }).fontCopied = true := by
  decide

/-- C7 (amended): validation precedes all expensive work and checks, in
order: photo attachment presence (400), name non-empty after sanitization
(400), template existence (500), font existence (500) — with no expensive
step (font copy, compositing, render) reached on any validation failure.
The photo check is presence-only: a request with an empty attachment never
receives the photo-required error. -/
theorem validation_before_expensive_work (env : GenEnv) (nm : Option String)
    (bytes : List Nat) :
    (generate env { name := nm, photo := none } =
       { resp := .clientErr "Photo is required (field name: photo)",
         workDirRemains := false, uploadRemains := false, fontCopied := false,
         overlayBuilt := false, renderAttempted := false }) ∧
    ((generate env { name := nm, photo := some bytes }).resp
        ≠ .clientErr "Photo is required (field name: photo)") ∧
    (sanitizedName (nm.getD "") = "" →
       generate env { name := nm, photo := some bytes } =
         { resp := .clientErr "Name is required", workDirRemains := false,
           uploadRemains := true, fontCopied := false, overlayBuilt := false,
           renderAttempted := false }) ∧
    (sanitizedName (nm.getD "") ≠ "" → env.templateExists = false →
       generate env { name := nm, photo := some bytes } =
         { resp := .serverErr "Template video missing on server",
           workDirRemains := false, uploadRemains := true, fontCopied := false,
           overlayBuilt := false, renderAttempted := false }) ∧
    (sanitizedName (nm.getD "") ≠ "" → env.templateExists = true →
     env.fontExists = false →
       generate env { name := nm, photo := some bytes } =
         { resp := .serverErr "Font file missing on server",
           workDirRemains := false, uploadRemains := true, fontCopied := false,
           overlayBuilt := false, renderAttempted := false }) := by
  refine ⟨rfl, ?_, ?_, ?_, ?_⟩
  · rw [generate_some]
    split_ifs <;> simp
  · intro h
    rw [generate_some, if_pos h]
  · intro h1 h2
    rw [generate_some, if_neg h1, if_pos (by simp [h2])]
  · intro h1 h2 h3
    rw [generate_some, if_neg h1, if_neg (by simp [h2]), if_pos (by simp [h3])]

/-- C7 witness: the amended theorem applied to a name that sanitizes to
empty. -/
theorem validation_before_expensive_work_witness :
    generate envAllOk { name := some ":", photo := some [1] } =
      { resp := .clientErr "Name is required", workDirRemains := false,
        uploadRemains := true, fontCopied := false, overlayBuilt := false,
        renderAttempted := false } :=
  (validation_before_expensive_work envAllOk (some ":") [1]).2.2.1 (by decide)

/-- C6 counterexample: the quote escaping does not make injection impossible
for every name containing a single quote.  A sanitized name that ends a
backslash right before its quote — reachable from the raw input
`a\', drawtext=text=PWNED`, which sanitization leaves unchanged — produces
`\\'` in the escaped text, whose quote is unescaped under the escape-aware
grammar; the remainder then carries a `,` separator, i.e. an injected filter
stage. -/
theorem quote_escaping_bypass_counterexample :
    (sanitizedName "a\\', drawtext=text=PWNED").toList.contains '\'' = true ∧
    injectsFilterStage (sanitizedName "a\\', drawtext=text=PWNED") = true := by decide

/-- C6 (amended): every single quote in the name is replaced by
backslash-quote and every colon in the font path is escaped identically
after backslash-to-slash normalization — so the escaped font path contains
no unescaped colon and no unescaped quote, and a name containing no
backslash cannot escape the quoted `text='...'` region (no injected filter
stage); names containing a backslash before a quote, however, defeat the
escaping (see the counterexample). -/
theorem filter_escaping_spec (name fontCopyPath : String) :
    ('\\' ∉ name.toList →
       breakoutSuffix (safeName name) = none ∧ injectsFilterStage name = false) ∧
    afterUnescaped ':' (fontPathEscapedForFilter fontCopyPath).toList = none ∧
    afterUnescaped '\'' (fontPathEscapedForFilter fontCopyPath).toList = none ∧
    '\\' ∉ (normSlash fontCopyPath).toList := by
  refine ⟨?_, ?_, ?_, normSlash_no_backslash fontCopyPath⟩
  · intro h
    have hb : breakoutSuffix (safeName name) = none := by
      show afterUnescaped '\'' (escCharL '\'' name.toList) = none
      exact escCharL_no_unescaped '\'' name.toList h
    refine ⟨hb, ?_⟩
    unfold injectsFilterStage
    rw [hb]
  · show afterUnescaped ':'
        (escCharL '\'' (escCharL ':' (normSlash fontCopyPath).toList)) = none
    exact escCharL_double_no_unescaped ':' (Or.inl rfl) _
      (normSlash_no_backslash fontCopyPath)
  · show afterUnescaped '\''
        (escCharL '\'' (escCharL ':' (normSlash fontCopyPath).toList)) = none
    exact escCharL_double_no_unescaped '\'' (Or.inr rfl) _
      (normSlash_no_backslash fontCopyPath)

/-- C6 witness: the amended theorem applied to a backslash-free quoted name
and a Windows-style font path. -/
theorem filter_escaping_spec_witness :
    breakoutSuffix (safeName "O'NEIL") = none ∧
    injectsFilterStage "O'NEIL" = false :=
  (filter_escaping_spec "O'NEIL" "C:\\work\\Montserrat-Bold.ttf").1 (by decide)

end CertVid
